import Mathlib

/-!
Verification of the ClawSwarm Messaging Gateway.

This file gives a shallow embedding, in Lean, of the gateway subsystem of the
ClawSwarm repository and proves the specified properties about it:

* `src/claw_swarm/gateway/schema.py` — the `UnifiedMessage` pydantic model and
  the `Platform` enumeration;
* `src/claw_swarm/gateway/adapters/telegram_adapter.py`,
  `discord_adapter.py`, `whatsapp_adapter.py` — the per-platform adapters;
* `src/claw_swarm/gateway/server.py` — `MessagingGatewayServicer`
  (`_adapters_for_request`, `PollMessages`).

Conventions of the embedding:

* Python integers are `Int` (or `Nat` where the source value is a count);
  Python `x >> k` on `Int` is floored division by `2 ^ k` (`Int.fdiv`), and
  `x << k` is multiplication by `2 ^ k`, matching Python semantics on
  arbitrary-precision integers.
* A Python value that may be `None` or an empty string (both falsy under
  `if not x:`) is an `Option String`; `optFalsy` is the truthiness test.
* The upstream HTTP world is an explicit argument: a Telegram fetch receives
  the decoded `getUpdates` payload (`none` models a non-200 status), a Discord
  fetch receives a function from the request it builds to the decoded channel
  payload (`none` models a non-200 status).
* Exceptions are `Except String`; an adapter used by the server is abstracted
  as a function `Int → Nat → Except String (List UnifiedMessage)` (the server
  treats adapters opaquely through `fetch_messages`).
* The serial `await` loop of `PollMessages` is additionally instrumented with
  an event trace (`FetchEvent`) recording, in program order, when each
  adapter's fetch is issued and when it returns; the un-instrumented result is
  the first projection.
-/

/-- Enumeration `Platform` from `schema.py` (an IntEnum with wire values
0, 1, 2, 3, 4). -/
inductive Platform where
  | UNSPECIFIED
  | TELEGRAM
  | DISCORD
  | WHATSAPP
  | EMAIL
deriving DecidableEq

/-- Wire value of a `Platform` (`int(self.platform)` in `to_grpc`). -/
def Platform.toWire : Platform → Nat
  | .UNSPECIFIED => 0
  | .TELEGRAM => 1
  | .DISCORD => 2
  | .WHATSAPP => 3
  | .EMAIL => 4

/-- Pydantic model `UnifiedMessage` from `schema.py`: the ten declared fields.
`raw_metadata` (Python `bytes`) is a list of byte values. -/
structure UnifiedMessage where
  id : String
  platform : Platform
  channel_id : String
  thread_id : String := ""
  sender_id : String
  sender_handle : String := ""
  text : String := ""
  attachment_urls : List String := []
  timestamp_utc_ms : Int := 0
  raw_metadata : List Nat := []
deriving DecidableEq

/-- Protobuf message `pb.UnifiedMessage` as produced by
`UnifiedMessage.to_grpc` (platform is its integer wire value). -/
structure PbUnifiedMessage where
  id : String
  platform : Nat
  channel_id : String
  thread_id : String
  sender_id : String
  sender_handle : String
  text : String
  attachment_urls : List String
  timestamp_utc_ms : Int
  raw_metadata : List Nat
deriving DecidableEq

/-- Method `UnifiedMessage.to_grpc` from `schema.py`. The `or ""` / `or b""`
fallbacks in the source are identities here because the model fields are
already non-optional and the fallback value equals the falsy value itself. -/
def UnifiedMessage.to_grpc (m : UnifiedMessage) : PbUnifiedMessage where
  id := m.id
  platform := m.platform.toWire
  channel_id := m.channel_id
  thread_id := m.thread_id
  sender_id := m.sender_id
  sender_handle := m.sender_handle
  text := m.text
  attachment_urls := m.attachment_urls
  timestamp_utc_ms := m.timestamp_utc_ms
  raw_metadata := m.raw_metadata

/-- Truthiness test for a Python value that is either `None` or a string:
`if not x:` succeeds on `None` and on the empty string. -/
def optFalsy : Option String → Bool
  | none => true
  | some s => s = ""

/-- Python `n >> k` on an arbitrary-precision integer: floored division by
`2 ^ k`. -/
def pyShiftRight (n : Int) (k : Nat) : Int :=
  Int.fdiv n (2 ^ k)

/-- Python `n << k` on an arbitrary-precision integer: multiplication by
`2 ^ k`. -/
def pyShiftLeft (n : Int) (k : Nat) : Int :=
  n * 2 ^ k

/-- Digit accumulator of the decimal parser modelling Python's `int(str)`
builtin. -/
def parseNatAux : List Char → Nat → Option Nat
  | [], acc => some acc
  | c :: rest, acc =>
    if c.isDigit then parseNatAux rest (acc * 10 + (c.toNat - '0'.toNat))
    else none

/-- Python's `int(str)` builtin on decimal strings: an optional sign followed
by digits parses to the integer, anything else raises `ValueError` (modelled
as `none`). Inputs with surrounding whitespace, a leading `+`, or digit
underscores — which Python also accepts but which never occur in this code's
inputs (snowflake ids and `str(int)` output) — are not modelled. -/
def pyParseInt? (s : String) : Option Int :=
  match s.data with
  | [] => none
  | '-' :: rest =>
    match rest with
    | [] => none
    | _ :: _ => (parseNatAux rest 0).map (fun v => -(Int.ofNat v))
  | ds => (parseNatAux ds 0).map Int.ofNat

/-- Function `_discord_snowflake_to_ms` from `discord_adapter.py`:
`(int(snowflake) >> 22) + 1420070400000`, and `0` when the string does not
parse as an integer (the `except (ValueError, TypeError)` branch). -/
def discord_snowflake_to_ms (snowflake : String) : Int :=
  match pyParseInt? snowflake with
  | some n => pyShiftRight n 22 + 1420070400000
  | none => 0

/-- Function `_ms_to_discord_snowflake` from `discord_adapter.py`:
`str((ms - 1420070400000) << 22)`. -/
def ms_to_discord_snowflake (ms : Int) : String :=
  toString (pyShiftLeft (ms - 1420070400000) 22)

/-! ## Telegram adapter (`telegram_adapter.py`) -/

/-- Sender object `msg.get("from", {})` of a Telegram message; each field is
read with a `""` default, so an absent object is the all-empty record. -/
structure TgFrom where
  id : String := ""
  username : String := ""
  first_name : String := ""
deriving DecidableEq

/-- Chat object `msg.get("chat", {})` of a Telegram message; fields are read
with `""` defaults (after `str(...)`). -/
structure TgChat where
  id : String := ""
  message_thread_id : String := ""
deriving DecidableEq

/-- Message (or channel post) object inside a Telegram update. `date` is the
platform timestamp in seconds. `attachments` is the list of file ids the
source extracts from the five media keys (photo/document/audio/voice/video),
kept here in extracted form since no property depends on the raw media
objects. -/
structure TgMessage where
  message_id : Int
  date : Nat := 0
  fromUser : TgFrom := {}
  chat : TgChat := {}
  text : String := ""
  attachments : List String := []
deriving DecidableEq

/-- One element of the `result` array of a `getUpdates` payload. -/
structure TgUpdate where
  update_id : Int
  message : Option TgMessage := none
  channel_post : Option TgMessage := none
deriving DecidableEq

/-- Adapter state of `TelegramAdapter`: the bot token (`None` or `""` are both
falsy) and the internal `_offset` cursor. -/
structure TelegramAdapter where
  token : Option String
  offset : Option Int := none
deriving DecidableEq

/-- Query parameters the adapter sends to `getUpdates`
(`telegram_adapter.py` lines 70-75): `limit = min(max_messages, 100)`,
`timeout = 10`, and `offset` only when the internal cursor is set. -/
structure TgParams where
  limit : Nat
  timeout : Nat
  offset : Option Int
deriving DecidableEq

/-- Parameter dict built by `TelegramAdapter.fetch_messages` before the HTTP
call. -/
def tgRequestParams (a : TelegramAdapter) (max_messages : Nat) : TgParams where
  limit := min max_messages 100
  timeout := 10
  offset := a.offset

/-- Expression `u.get("message") or u.get("channel_post")`. -/
def TgUpdate.effectiveMsg (u : TgUpdate) : Option TgMessage :=
  match u.message with
  | some m => some m
  | none => u.channel_post

/-- Python `a or b` on two strings: `a` unless it is empty. -/
def strOr (a b : String) : String :=
  if a = "" then b else a

/-- Normalization of one Telegram message into a `UnifiedMessage`
(`telegram_adapter.py` lines 110-121), given the timestamp already converted
to milliseconds. -/
def tgToUnified (msg : TgMessage) (ts : Int) : UnifiedMessage where
  id := toString msg.message_id
  platform := Platform.TELEGRAM
  channel_id := msg.chat.id
  thread_id := msg.chat.message_thread_id
  sender_id := msg.fromUser.id
  sender_handle := strOr msg.fromUser.username msg.fromUser.first_name
  text := msg.text
  attachment_urls := msg.attachments
  timestamp_utc_ms := ts

/-- Loop state of the `for u in data.get("result", [])` loop: the output list
`out`, the cursor `self._offset`, and (instrumentation) the update ids
iterated so far. -/
structure TgAcc where
  out : List UnifiedMessage
  off : Option Int
  pids : List Int
deriving DecidableEq

/-- Update loop of `TelegramAdapter.fetch_messages`
(`telegram_adapter.py` lines 81-135). For each update: set
`self._offset = update_id + 1`; skip updates with no message/channel_post;
convert `date` seconds to ms; skip when
`since_timestamp_utc_ms and ts <= since_timestamp_utc_ms`; append the
normalized message; `break` once `len(out) >= max_messages`. -/
def tgLoop (since : Int) (max_messages : Nat) :
    List TgUpdate → TgAcc → TgAcc
  | [], acc => acc
  | u :: rest, acc =>
    match u.effectiveMsg with
    | none =>
      tgLoop since max_messages rest
        ⟨acc.out, some (u.update_id + 1), acc.pids ++ [u.update_id]⟩
    | some msg =>
      if since ≠ 0 ∧ (msg.date : Int) * 1000 ≤ since then
        tgLoop since max_messages rest
          ⟨acc.out, some (u.update_id + 1), acc.pids ++ [u.update_id]⟩
      else if max_messages ≤
          (acc.out ++ [tgToUnified msg ((msg.date : Int) * 1000)]).length then
        ⟨acc.out ++ [tgToUnified msg ((msg.date : Int) * 1000)],
         some (u.update_id + 1), acc.pids ++ [u.update_id]⟩
      else
        tgLoop since max_messages rest
          ⟨acc.out ++ [tgToUnified msg ((msg.date : Int) * 1000)],
           some (u.update_id + 1), acc.pids ++ [u.update_id]⟩

/-- Result of one Telegram fetch: returned messages, the updated adapter
state, and (instrumentation) the update ids the loop iterated. -/
structure TgFetchOut where
  messages : List UnifiedMessage
  state : TelegramAdapter
  processed : List Int
deriving DecidableEq

/-- Method `TelegramAdapter.fetch_messages`. The decoded upstream payload is
an explicit argument: `none` models a non-200 response (early return with the
empty `out` and unchanged state), `some updates` the `result` array of the
decoded JSON body. -/
def TelegramAdapter.fetchFull (a : TelegramAdapter) (since : Int)
    (max_messages : Nat) (resp : Option (List TgUpdate)) : TgFetchOut :=
  if optFalsy a.token then ⟨[], a, []⟩
  else
    match resp with
    | none => ⟨[], a, []⟩
    | some updates =>
      let acc := tgLoop since max_messages updates ⟨[], a.offset, []⟩
      ⟨acc.out, { a with offset := acc.off }, acc.pids⟩

/-- Return value of `TelegramAdapter.fetch_messages` (the message list). -/
def TelegramAdapter.fetch_messages (a : TelegramAdapter) (since : Int)
    (max_messages : Nat) (resp : Option (List TgUpdate)) :
    List UnifiedMessage :=
  (a.fetchFull since max_messages resp).messages

/-! ## Discord adapter (`discord_adapter.py`) -/

/-- Author object `msg.get("author", {})` of a Discord message; fields read
with `""` defaults. -/
structure DcAuthor where
  id : String := ""
  username : String := ""
  global_name : String := ""
deriving DecidableEq

/-- One element of a Discord channel-messages payload. `type` is
`msg.get("type")` (`none` when the key is absent); `thread` is
`msg.get("thread")` when it is a dict, carrying its `id`; `attachments` holds
the `url` values of the attachment objects (absent urls read as `""` and are
filtered out by the source's `if a.get("url")`). -/
structure DcMsg where
  type : Option Int := none
  id : String
  channel_id : String := ""
  thread : Option String := none
  author : DcAuthor := {}
  content : String := ""
  attachments : List String := []
deriving DecidableEq

/-- Configuration of `DiscordAdapter`: bot token and channel id list
(an empty list is falsy under `if not self._channel_ids:`). -/
structure DiscordAdapter where
  token : Option String
  channel_ids : List String
deriving DecidableEq

/-- Request the adapter issues for one channel: the channel id, the `limit`
query value, and the optional `after` snowflake filter. -/
structure DcRequest where
  channel_id : String
  limit : Nat
  after : Option String
deriving DecidableEq

/-- Upstream environment of one Discord fetch: the decoded payload returned
for each request the adapter issues (`none` models a non-200 status, which the
source skips with `continue`). -/
def DcEnv : Type := DcRequest → Option (List DcMsg)

/-- Inner message loop of `DiscordAdapter.fetch_messages`
(`discord_adapter.py` lines 60-102): skip messages whose `type` is not 0,
derive the timestamp from the snowflake id, skip when
`since_timestamp_utc_ms and ts <= since_timestamp_utc_ms`, and normalize the
rest in order. -/
def dcNormalize (since : Int) : List DcMsg → List UnifiedMessage
  | [] => []
  | m :: rest =>
    if m.type ≠ some 0 then dcNormalize since rest
    else if since ≠ 0 ∧ discord_snowflake_to_ms m.id ≤ since then
      dcNormalize since rest
    else
      { id := m.id
        platform := Platform.DISCORD
        channel_id := m.channel_id
        thread_id := (m.thread).getD ""
        sender_id := m.author.id
        sender_handle := strOr m.author.username m.author.global_name
        text := m.content
        attachment_urls := m.attachments.filter (fun u => u ≠ "")
        timestamp_utc_ms := discord_snowflake_to_ms m.id }
        :: dcNormalize since rest

/-- Channel loop of `DiscordAdapter.fetch_messages`
(`discord_adapter.py` lines 51-104): for each channel build the request (with
the `after` snowflake only when `since_timestamp_utc_ms` is truthy), skip
non-200 responses, append the normalized messages, and `break` once
`len(out) >= max_messages`. -/
def dcChannels (since : Int) (max_messages per_channel : Nat) (env : DcEnv) :
    List String → List UnifiedMessage → List UnifiedMessage
  | [], out => out
  | ch :: rest, out =>
    match env ⟨ch, per_channel,
        if since ≠ 0 then some (ms_to_discord_snowflake since) else none⟩ with
    | none => dcChannels since max_messages per_channel env rest out
    | some data =>
      if max_messages ≤ (out ++ dcNormalize since data).length then
        out ++ dcNormalize since data
      else
        dcChannels since max_messages per_channel env rest
          (out ++ dcNormalize since data)

/-- Comparison `key=lambda m: m.timestamp_utc_ms` used by the sort in
`discord_adapter.py`. Python's `sorted` is a stable sort by this key; it is
modelled by `List.insertionSort`, which is stable and extensionally equal to
any stable sort over the same relation. -/
def tsLeU : UnifiedMessage → UnifiedMessage → Prop :=
  fun a b => a.timestamp_utc_ms ≤ b.timestamp_utc_ms

instance : DecidableRel tsLeU :=
  fun a b => Int.decLe a.timestamp_utc_ms b.timestamp_utc_ms

instance : IsTotal UnifiedMessage tsLeU :=
  ⟨fun a b => Int.le_total a.timestamp_utc_ms b.timestamp_utc_ms⟩

instance : IsTrans UnifiedMessage tsLeU :=
  ⟨fun _ _ _ => Int.le_trans⟩

/-- Method `DiscordAdapter.fetch_messages`: empty on missing token or channel
ids; otherwise an even per-channel budget `max(1, max_messages // len)`, at
most 20 channels polled, then a global stable sort by timestamp and a
truncation to `max_messages`. -/
def DiscordAdapter.fetch_messages (d : DiscordAdapter) (since : Int)
    (max_messages : Nat) (env : DcEnv) : List UnifiedMessage :=
  if optFalsy d.token = true ∨ d.channel_ids = [] then []
  else
    ((dcChannels since max_messages
        (max 1 (max_messages / d.channel_ids.length)) env
        (d.channel_ids.take 20) []).insertionSort tsLeU).take max_messages

/-! ## WhatsApp adapter (`whatsapp_adapter.py`) -/

/-- Configuration of `WhatsAppAdapter`: access token and phone number id. -/
structure WhatsAppAdapter where
  token : Option String
  phone_number_id : Option String
deriving DecidableEq

/-- Function `_drain_queue` from `whatsapp_adapter.py`: a stub that returns
the empty list (no queue backend is implemented). -/
def drain_queue (queue_path : String) (since : Int) (max_messages : Nat)
    (platform : Platform) : List UnifiedMessage :=
  []

/-- Method `WhatsAppAdapter.fetch_messages`: empty on missing credentials;
with a truthy `WHATSAPP_QUEUE_PATH` it drains the (stub) queue, otherwise it
returns the empty list. -/
def WhatsAppAdapter.fetch_messages (w : WhatsAppAdapter) (since : Int)
    (max_messages : Nat) (queue_key : Option String) : List UnifiedMessage :=
  if optFalsy w.token = true ∨ optFalsy w.phone_number_id = true then []
  else
    match queue_key with
    | none => []
    | some k =>
      if k = "" then []
      else drain_queue k since max_messages Platform.WHATSAPP

/-! ## Gateway server (`server.py`) -/

/-- Mapping `_PLATFORM_MAP.get(p, Platform.UNSPECIFIED)` from `server.py`:
proto wire value to `Platform`, defaulting to `UNSPECIFIED`. -/
def platformOfWire : Nat → Platform
  | 1 => Platform.TELEGRAM
  | 2 => Platform.DISCORD
  | 3 => Platform.WHATSAPP
  | _ => Platform.UNSPECIFIED

/-- Loop of `_adapters_for_request` over a non-trivial platform filter
(`server.py` lines 60-68): map each wire value through `_PLATFORM_MAP`, skip
`UNSPECIFIED`, and keep the configured adapter when the platform is a key of
`_adapters_by_platform` (represented as an association list). -/
def resolvePlatforms {A : Type} (d : List (Platform × A)) :
    List Nat → List A
  | [] => []
  | p :: rest =>
    if platformOfWire p ≠ Platform.UNSPECIFIED then
      match d.lookup (platformOfWire p) with
      | some a => a :: resolvePlatforms d rest
      | none => resolvePlatforms d rest
    else resolvePlatforms d rest

/-- Method `MessagingGatewayServicer._adapters_for_request`
(`server.py` lines 52-68): an empty filter, or a filter that is exactly
`[PLATFORM_UNSPECIFIED]`, resolves to all configured adapters
(`self._adapters_by_platform.values()`); any other filter goes through the
lookup loop. -/
def adaptersForRequest {A : Type} (d : List (Platform × A)) :
    List Nat → List A
  | [] => d.map Prod.snd
  | [p] => if p = 0 then d.map Prod.snd else resolvePlatforms d [p]
  | ps => resolvePlatforms d ps

/-- Adapter as the server sees it: `fetch_messages(since, budget)` either
returns a batch or raises (`Except.error` carries `str(e)`). -/
def AdapterFn : Type := Int → Nat → Except String (List UnifiedMessage)

/-- Trace event of the `PollMessages` fetch loop: `call i s b` records that
the fetch of adapter number `i` was issued with watermark `s` and budget `b`;
`ret i` records that this fetch returned. -/
inductive FetchEvent where
  | call (i : Nat) (since : Int) (budget : Nat)
  | ret (i : Nat)
deriving DecidableEq

/-- Comparison `key=lambda m: m.timestamp_utc_ms` on protobuf messages
(`server.py` line 94); `list.sort` is a stable sort by this key, modelled by
`List.insertionSort` as for the Discord adapter. -/
def tsLePb : PbUnifiedMessage → PbUnifiedMessage → Prop :=
  fun a b => a.timestamp_utc_ms ≤ b.timestamp_utc_ms

instance : DecidableRel tsLePb :=
  fun a b => Int.decLe a.timestamp_utc_ms b.timestamp_utc_ms

instance : IsTotal PbUnifiedMessage tsLePb :=
  ⟨fun a b => Int.le_total a.timestamp_utc_ms b.timestamp_utc_ms⟩

instance : IsTrans PbUnifiedMessage tsLePb :=
  ⟨fun _ _ _ => Int.le_trans⟩

/-- Value `max_messages = request.max_messages or 100` (`server.py` line 77):
a zero request value defaults to 100. -/
def maxmEff (maxReq : Nat) : Nat :=
  if maxReq = 0 then 100 else maxReq

/-- Value `per_adapter = max(1, max_messages // len(adapters)) if adapters
else 0` (`server.py` lines 79-81). -/
def perAdapterBudget (maxm n : Nat) : Nat :=
  if n = 0 then 0 else max 1 (maxm / n)

/-- Fetch loop of `PollMessages` (`server.py` lines 82-93). Each iteration
awaits one adapter's `fetch_messages` to completion before the next iteration
starts (the source awaits inside a `for` loop and spawns no tasks), appends
the batch converted by `to_grpc`, and on an exception abandons the
accumulated messages and propagates the error. The second component is the
event trace in program order. -/
def fetchSeq (since : Int) (per : Nat) :
    List AdapterFn → Nat → List PbUnifiedMessage →
    Except String (List PbUnifiedMessage) × List FetchEvent
  | [], _, acc => (Except.ok acc, [])
  | f :: rest, i, acc =>
    match f since per with
    | Except.ok batch =>
      let r :=
        fetchSeq since per rest (i + 1)
          (acc ++ batch.map UnifiedMessage.to_grpc)
      (r.1, FetchEvent.call i since per :: FetchEvent.ret i :: r.2)
    | Except.error e => (Except.error e, [FetchEvent.call i since per])

/-- Outcome of one `PollMessages` call: the `messages` field of the returned
`PollMessagesResponse`, and `errorDetails = some e` exactly when the source
took the `except` branch (`context.set_code(INTERNAL)`,
`context.set_details(str(e))`, `return PollMessagesResponse(messages=[])`). -/
structure PollOutcome where
  messages : List PbUnifiedMessage
  errorDetails : Option String
deriving DecidableEq

/-- Body of `MessagingGatewayServicer.PollMessages` after adapter resolution
(`server.py` lines 76-97), over an already-resolved adapter list, with the
fetch-event trace as second component. `since_ms = request.since or 0` is the
identity on integers (`0 or 0 == 0`). On success the batches are stably
sorted by `timestamp_utc_ms` and truncated to `max_messages`. -/
def pollMessagesTr (adapters : List AdapterFn) (sinceReq : Int)
    (maxReq : Nat) : PollOutcome × List FetchEvent :=
  match fetchSeq sinceReq (perAdapterBudget (maxmEff maxReq) adapters.length)
      adapters 0 [] with
  | (Except.ok msgs, evs) =>
    (⟨(msgs.insertionSort tsLePb).take (maxmEff maxReq), none⟩, evs)
  | (Except.error e, evs) => (⟨[], some e⟩, evs)

/-- Observable result of `PollMessages` over an already-resolved adapter
list. -/
def pollMessages (adapters : List AdapterFn) (sinceReq : Int)
    (maxReq : Nat) : PollOutcome :=
  (pollMessagesTr adapters sinceReq maxReq).1

/-- Full `MessagingGatewayServicer.PollMessages` (`server.py` lines 70-97):
resolve the platform filter against the configured adapters, then run the
fetch/merge body. -/
def PollMessages (d : List (Platform × AdapterFn)) (platforms : List Nat)
    (sinceReq : Int) (maxReq : Nat) : PollOutcome :=
  pollMessages (adaptersForRequest d platforms) sinceReq maxReq

/-! ## Closed-model validation (`schema.py`) -/

/-- Declared field names of the `UnifiedMessage` pydantic model, in
declaration order. -/
def unifiedMessageFieldNames : List String :=
  ["id", "platform", "channel_id", "thread_id", "sender_id",
   "sender_handle", "text", "attachment_urls", "timestamp_utc_ms",
   "raw_metadata"]

/-- Validation performed at construction by pydantic for
`model_config = {"extra": "forbid"}` (`schema.py` line 37): any keyword
argument whose name is not a declared field fails validation with an error
naming that field. The check is modelled over the construction-time field
assignments (values are opaque, of an arbitrary type `V`). -/
def checkClosedModel {V : Type} (assigns : List (String × V)) :
    Except String Unit :=
  match assigns.find? (fun kv => !(unifiedMessageFieldNames.contains kv.1)) with
  | some kv => Except.error ("Extra inputs are not permitted: " ++ kv.1)
  | none => Except.ok ()

/-- Construction of a `UnifiedMessage` from keyword assignments: it succeeds
(returning the accepted assignments) only when the closed-model validation
passes. -/
def constructUnifiedMessage {V : Type} (assigns : List (String × V)) :
    Except String (List (String × V)) :=
  match checkClosedModel assigns with
  | Except.error e => Except.error e
  | Except.ok _ => Except.ok assigns

/-! ## Concrete fixtures used by witnesses and counterexamples -/

/-- Concrete unified message with a given id and timestamp, used by closed
witness statements. -/
def mkMsg (i : String) (ts : Int) : UnifiedMessage where
  id := i
  platform := Platform.TELEGRAM
  channel_id := "chan"
  sender_id := "sender"
  timestamp_utc_ms := ts

/-- Adapter that returns one message at t=200. -/
def adLate : AdapterFn := fun _ _ => Except.ok [mkMsg "a" 200]

/-- Adapter that returns one message at t=100. -/
def adEarly : AdapterFn := fun _ _ => Except.ok [mkMsg "b" 100]

/-- Adapter whose fetch raises. -/
def adBoom : AdapterFn := fun _ _ => Except.error "boom"

/-! ## C6 — Discord snowflake round trip -/

/-- C6: converting ms = 1700000000000 to a Discord snowflake with
`_ms_to_discord_snowflake` and back with `_discord_snowflake_to_ms` lands in
the same millisecond: the round trip is exactly 1700000000000 after the floor
truncation of the right shift. -/
theorem discord_snowflake_roundtrip_1700000000000 :
    discord_snowflake_to_ms (ms_to_discord_snowflake 1700000000000) =
      1700000000000 := by
  decide

/-! ## C8 — missing credentials yield empty results -/

/-- C8: every adapter whose required credentials are absent (Telegram: bot
token; Discord: bot token or channel ids; WhatsApp: access token or phone
number id) returns the empty list from `fetch_messages`, for all arguments
and upstream payloads; the early `return []` happens before any failing
operation, so no exception is possible on this path. -/
theorem fetch_messages_missing_credentials_empty :
    (∀ (a : TelegramAdapter) (since : Int) (maxm : Nat)
        (resp : Option (List TgUpdate)), optFalsy a.token = true →
        a.fetch_messages since maxm resp = [])
    ∧ (∀ (d : DiscordAdapter) (since : Int) (maxm : Nat) (env : DcEnv),
        optFalsy d.token = true ∨ d.channel_ids = [] →
        d.fetch_messages since maxm env = [])
    ∧ (∀ (w : WhatsAppAdapter) (since : Int) (maxm : Nat)
        (qk : Option String),
        optFalsy w.token = true ∨ optFalsy w.phone_number_id = true →
        w.fetch_messages since maxm qk = []) := by
  refine ⟨?_, ?_, ?_⟩
  · intro a since maxm resp h
    simp [TelegramAdapter.fetch_messages, TelegramAdapter.fetchFull, h]
  · intro d since maxm env h
    simp [DiscordAdapter.fetch_messages, h]
  · intro w since maxm qk h
    simp [WhatsAppAdapter.fetch_messages, h]

/-- Witness for C8 at a concrete input: a Telegram adapter with no token
returns no messages. -/
theorem fetch_messages_missing_credentials_empty_witness :
    optFalsy (none : Option String) = true ∧
      TelegramAdapter.fetch_messages ⟨none, none⟩ 0 5
        (some [⟨7, some { message_id := 7, date := 3 }, none⟩]) = [] :=
  ⟨by decide,
    fetch_messages_missing_credentials_empty.1 ⟨none, none⟩ 0 5
      (some [⟨7, some { message_id := 7, date := 3 }, none⟩]) (by decide)⟩

/-! ## C9 — the unified message model is closed to unknown fields -/

/-- C9: constructing a `UnifiedMessage` with any field name outside the ten
declared fields fails validation, whatever the unrecognized name and its
value. -/
theorem constructUnifiedMessage_rejects_unknown_field {V : Type}
    (assigns : List (String × V)) (k : String) (v : V)
    (hmem : (k, v) ∈ assigns)
    (hk : unifiedMessageFieldNames.contains k = false) :
    (constructUnifiedMessage assigns).isOk = false := by
  have hfind :
      (assigns.find?
        (fun kv => !(unifiedMessageFieldNames.contains kv.1))).isSome = true := by
    rw [List.find?_isSome]
    refine ⟨(k, v), hmem, ?_⟩
    show (!(unifiedMessageFieldNames.contains k)) = true
    rw [hk]
    rfl
  unfold constructUnifiedMessage checkClosedModel
  cases hcase :
      assigns.find? (fun kv => !(unifiedMessageFieldNames.contains kv.1)) with
  | none => rw [hcase] at hfind; simp at hfind
  | some kv => rfl

/-- Witness for C9 at a concrete input: the field name `bogus` is rejected. -/
theorem constructUnifiedMessage_rejects_unknown_field_witness :
    (("bogus", (0 : Nat)) ∈ [("id", (0 : Nat)), ("bogus", 0)]) ∧
      unifiedMessageFieldNames.contains "bogus" = false ∧
      (constructUnifiedMessage [("id", (0 : Nat)), ("bogus", 0)]).isOk
        = false :=
  ⟨by decide, by decide,
    constructUnifiedMessage_rejects_unknown_field
      [("id", (0 : Nat)), ("bogus", 0)] "bogus" 0 (by decide) (by decide)⟩

/-! ## C10 — handling of the UNSPECIFIED wire value in the platform filter -/

/-- Helper: the lookup loop of `_adapters_for_request` skips every wire value
that maps to `UNSPECIFIED`, in particular every literal 0 in the filter. -/
lemma resolvePlatforms_filter_zero {A : Type} (d : List (Platform × A)) :
    ∀ ps : List Nat,
      resolvePlatforms d ps =
        resolvePlatforms d (ps.filter (fun p => decide (p ≠ 0)))
  | [] => rfl
  | p :: rest => by
    have ih := resolvePlatforms_filter_zero d rest
    by_cases hp : p = 0
    · subst hp
      exact ih
    · rw [List.filter_cons_of_pos (by simp [hp])]
      show resolvePlatforms d (p :: rest) =
        resolvePlatforms d (p :: rest.filter (fun p => decide (p ≠ 0)))
      unfold resolvePlatforms
      by_cases hplat : platformOfWire p ≠ Platform.UNSPECIFIED
      · rw [if_pos hplat, if_pos hplat]
        cases d.lookup (platformOfWire p) with
        | some a => rw [ih]
        | none => exact ih
      · rw [if_neg hplat, if_neg hplat]
        exact ih

/-- C10: a platform filter that is exactly `[UNSPECIFIED]` (wire value 0)
resolves, like the empty filter, to the full list of configured adapters,
while a 0 occurring in a filter with more than one element is skipped by the
lookup loop and contributes no adapter. -/
theorem adaptersForRequest_unspecified (A : Type) (d : List (Platform × A))
    (ps : List Nat) (h : 2 ≤ ps.length) :
    adaptersForRequest d [0] = d.map Prod.snd
    ∧ adaptersForRequest d [] = d.map Prod.snd
    ∧ adaptersForRequest d ps = resolvePlatforms d ps
    ∧ resolvePlatforms d ps =
        resolvePlatforms d (ps.filter (fun p => decide (p ≠ 0))) := by
  refine ⟨rfl, rfl, ?_, resolvePlatforms_filter_zero d ps⟩
  match ps, h with
  | p :: q :: rest, _ => rfl

/-- Witness for C10 at a concrete input: with Telegram and Discord configured,
the filter [0] returns both adapters, while the filter [0, 2] resolves to the
Discord adapter only, the 0 contributing nothing. -/
theorem adaptersForRequest_unspecified_witness :
    2 ≤ ([0, 2] : List Nat).length ∧
      (adaptersForRequest
          [(Platform.TELEGRAM, "tg"), (Platform.DISCORD, "dc")] [0]
        = ["tg", "dc"]
      ∧ adaptersForRequest
          [(Platform.TELEGRAM, "tg"), (Platform.DISCORD, "dc")] []
        = ["tg", "dc"]
      ∧ adaptersForRequest
          [(Platform.TELEGRAM, "tg"), (Platform.DISCORD, "dc")] [0, 2]
        = resolvePlatforms
            [(Platform.TELEGRAM, "tg"), (Platform.DISCORD, "dc")] [0, 2]
      ∧ resolvePlatforms
          [(Platform.TELEGRAM, "tg"), (Platform.DISCORD, "dc")] [0, 2]
        = resolvePlatforms
            [(Platform.TELEGRAM, "tg"), (Platform.DISCORD, "dc")]
            (([0, 2] : List Nat).filter (fun p => decide (p ≠ 0)))) :=
  ⟨by decide,
    adaptersForRequest_unspecified String
      [(Platform.TELEGRAM, "tg"), (Platform.DISCORD, "dc")] [0, 2]
      (by decide)⟩

/-! ## C4 — the fetch fan-out of PollMessages is in fact serial -/

/-- C4 (evaluation at the failing input): with two configured adapters and a
default request, the recorded fetch trace of `PollMessages` is strictly
serial — adapter 1's fetch is issued only after adapter 0's fetch has
returned, refuting the claimed concurrent fan-out. The budget 5 is
`max(1, 10 // 2)`. -/
theorem pollMessages_trace_serial :
    (pollMessagesTr [adLate, adEarly] 0 10).2 =
      [FetchEvent.call 0 0 5, FetchEvent.ret 0,
       FetchEvent.call 1 0 5, FetchEvent.ret 1] := by
  decide

/-! ## C7 — Telegram offset tracking -/

/-- Helper: in a list whose adjacent elements are non-decreasing, every
element is at most the last one. -/
lemma chainLe_le_getLastD :
    ∀ (l : List Int) (d : Int), List.Chain' (· ≤ ·) l →
      ∀ x ∈ l, x ≤ l.getLastD d
  | [], _, _, x, hx => absurd hx (List.not_mem_nil x)
  | a :: t, d, hchain, x, hx => by
    rw [List.getLastD_cons]
    rcases List.mem_cons.mp hx with hxa | hxt
    · cases t with
      | nil => rw [hxa]; exact le_refl a
      | cons b t' =>
        rw [List.chain'_cons] at hchain
        rw [hxa]
        exact le_trans hchain.1
          (chainLe_le_getLastD (b :: t') a hchain.2 b (List.mem_cons_self b t'))
    · cases t with
      | nil => exact absurd hxt (List.not_mem_nil x)
      | cons b t' =>
        rw [List.chain'_cons] at hchain
        exact chainLe_le_getLastD (b :: t') a hchain.2 x hxt

/-- Helper: the update loop maintains the invariant that, once at least one
update has been iterated, the offset equals the last iterated update id plus
one. -/
lemma tgLoop_offset_inv (since : Int) (maxm : Nat) :
    ∀ (upds : List TgUpdate) (acc : TgAcc),
      (acc.pids ≠ [] → acc.off = some (acc.pids.getLastD 0 + 1)) →
      ((tgLoop since maxm upds acc).pids ≠ [] →
        (tgLoop since maxm upds acc).off =
          some ((tgLoop since maxm upds acc).pids.getLastD 0 + 1))
  | [], acc, hacc => hacc
  | u :: rest, acc, hacc => by
    have hstep : ∀ out' : List UnifiedMessage,
        (TgAcc.mk out' (some (u.update_id + 1)) (acc.pids ++ [u.update_id])).pids ≠ [] →
        (TgAcc.mk out' (some (u.update_id + 1)) (acc.pids ++ [u.update_id])).off =
          some ((TgAcc.mk out' (some (u.update_id + 1))
            (acc.pids ++ [u.update_id])).pids.getLastD 0 + 1) := by
      intro out' _
      show some (u.update_id + 1) =
        some ((acc.pids ++ [u.update_id]).getLastD 0 + 1)
      rw [List.getLastD_concat]
    cases hm : u.effectiveMsg with
    | none =>
      simp only [tgLoop, hm]
      exact tgLoop_offset_inv since maxm rest _ (hstep acc.out)
    | some msg =>
      simp only [tgLoop, hm]
      by_cases hskip : since ≠ 0 ∧ (msg.date : Int) * 1000 ≤ since
      · rw [if_pos hskip]
        exact tgLoop_offset_inv since maxm rest _ (hstep acc.out)
      · rw [if_neg hskip]
        by_cases hbreak :
            maxm ≤ (acc.out ++ [tgToUnified msg ((msg.date : Int) * 1000)]).length
        · rw [if_pos hbreak]
          exact hstep (acc.out ++ [tgToUnified msg ((msg.date : Int) * 1000)])
        · rw [if_neg hbreak]
          exact tgLoop_offset_inv since maxm rest _
            (hstep (acc.out ++ [tgToUnified msg ((msg.date : Int) * 1000)]))

/-- Counterexample to C7 at a concrete input: a payload whose update ids
arrive out of order, [5, 3]. Both updates are processed, the highest id seen
is 5, yet the stored offset is 3 + 1 = 4 and not 5 + 1 = 6 — the code tracks
the last iterated id, not the highest. -/
theorem telegram_offset_not_highest :
    (TelegramAdapter.fetchFull ⟨some "t", none⟩ 0 10
        (some [⟨5, some { message_id := 5, date := 10 }, none⟩,
               ⟨3, some { message_id := 3, date := 10 }, none⟩])).processed
      = [5, 3]
    ∧ (TelegramAdapter.fetchFull ⟨some "t", none⟩ 0 10
        (some [⟨5, some { message_id := 5, date := 10 }, none⟩,
               ⟨3, some { message_id := 3, date := 10 }, none⟩])).state.offset
      = some 4
    ∧ (TelegramAdapter.fetchFull ⟨some "t", none⟩ 0 10
        (some [⟨5, some { message_id := 5, date := 10 }, none⟩,
               ⟨3, some { message_id := 3, date := 10 }, none⟩])).state.offset
      ≠ some (5 + 1) := by
  decide

/-- C7 (amended): after a fetch that iterates at least one update, the
adapter's offset equals the id of the LAST iterated update plus one (which is
the highest id plus one exactly when the payload's update ids are
non-decreasing, as Telegram's real payloads are), and that offset is the
`offset` query parameter of the next request. -/
theorem telegram_offset_amended (a : TelegramAdapter) (since : Int)
    (maxm maxm' : Nat) (resp : Option (List TgUpdate))
    (h : (a.fetchFull since maxm resp).processed ≠ []) :
    (a.fetchFull since maxm resp).state.offset =
      some ((a.fetchFull since maxm resp).processed.getLastD 0 + 1)
    ∧ (List.Chain' (· ≤ ·) (a.fetchFull since maxm resp).processed →
        ((a.fetchFull since maxm resp).processed.all
          (fun x =>
            decide (x ≤ (a.fetchFull since maxm resp).processed.getLastD 0)))
          = true)
    ∧ (tgRequestParams (a.fetchFull since maxm resp).state maxm').offset =
        some ((a.fetchFull since maxm resp).processed.getLastD 0 + 1) := by
  have hmain : (a.fetchFull since maxm resp).state.offset =
      some ((a.fetchFull since maxm resp).processed.getLastD 0 + 1) := by
    unfold TelegramAdapter.fetchFull at h ⊢
    by_cases ht : optFalsy a.token
    · rw [if_pos ht] at h
      exact absurd rfl h
    · rw [if_neg ht] at h ⊢
      cases resp with
      | none => exact absurd rfl h
      | some updates =>
        exact tgLoop_offset_inv since maxm updates ⟨[], a.offset, []⟩
          (fun hne => absurd rfl hne) h
  refine ⟨hmain, ?_, hmain⟩
  intro hchain
  rw [List.all_eq_true]
  intro x hx
  exact decide_eq_true
    (chainLe_le_getLastD (a.fetchFull since maxm resp).processed 0 hchain x hx)

/-- Witness for the amended C7 at a concrete input: a sorted payload with
update ids [3, 5]; the offset becomes 6 = 5 + 1 and is sent as the next
request's `offset` parameter. -/
theorem telegram_offset_amended_witness :
    (TelegramAdapter.fetchFull ⟨some "t", none⟩ 0 10
        (some [⟨3, some { message_id := 3, date := 10 }, none⟩,
               ⟨5, some { message_id := 5, date := 10 }, none⟩])).processed
      ≠ []
    ∧ ((TelegramAdapter.fetchFull ⟨some "t", none⟩ 0 10
          (some [⟨3, some { message_id := 3, date := 10 }, none⟩,
                 ⟨5, some { message_id := 5, date := 10 }, none⟩])).state.offset
        = some ((TelegramAdapter.fetchFull ⟨some "t", none⟩ 0 10
            (some [⟨3, some { message_id := 3, date := 10 }, none⟩,
                   ⟨5, some { message_id := 5, date := 10 }, none⟩])).processed.getLastD 0 + 1)
      ∧ (List.Chain' (· ≤ ·)
            (TelegramAdapter.fetchFull ⟨some "t", none⟩ 0 10
              (some [⟨3, some { message_id := 3, date := 10 }, none⟩,
                     ⟨5, some { message_id := 5, date := 10 }, none⟩])).processed →
          ((TelegramAdapter.fetchFull ⟨some "t", none⟩ 0 10
              (some [⟨3, some { message_id := 3, date := 10 }, none⟩,
                     ⟨5, some { message_id := 5, date := 10 }, none⟩])).processed.all
            (fun x =>
              decide (x ≤ (TelegramAdapter.fetchFull ⟨some "t", none⟩ 0 10
                (some [⟨3, some { message_id := 3, date := 10 }, none⟩,
                       ⟨5, some { message_id := 5, date := 10 }, none⟩])).processed.getLastD 0)))
            = true)
      ∧ (tgRequestParams
            (TelegramAdapter.fetchFull ⟨some "t", none⟩ 0 10
              (some [⟨3, some { message_id := 3, date := 10 }, none⟩,
                     ⟨5, some { message_id := 5, date := 10 }, none⟩])).state 100).offset
          = some ((TelegramAdapter.fetchFull ⟨some "t", none⟩ 0 10
              (some [⟨3, some { message_id := 3, date := 10 }, none⟩,
                     ⟨5, some { message_id := 5, date := 10 }, none⟩])).processed.getLastD 0 + 1)) :=
  ⟨by decide,
    telegram_offset_amended ⟨some "t", none⟩ 0 10 100
      (some [⟨3, some { message_id := 3, date := 10 }, none⟩,
             ⟨5, some { message_id := 5, date := 10 }, none⟩]) (by decide)⟩

/-! ## C1 — global ordering of a PollMessages response -/

/-- C1: when no matched adapter raises (so the call succeeds and the `except`
branch sets no error details), the returned message list is ordered by
`timestamp_utc_ms`, non-decreasing across the whole response, whatever
adapters the messages came from. -/
theorem pollMessages_response_sorted (adapters : List AdapterFn)
    (since : Int) (maxReq : Nat)
    (h : (pollMessages adapters since maxReq).errorDetails = none) :
    List.Pairwise tsLePb (pollMessages adapters since maxReq).messages := by
  unfold pollMessages pollMessagesTr
  cases hfs : fetchSeq since
      (perAdapterBudget (maxmEff maxReq) adapters.length) adapters 0 [] with
  | mk r evs =>
    cases r with
    | ok msgs =>
      exact List.Pairwise.take (List.sorted_insertionSort tsLePb msgs)
    | error e =>
      exact List.Pairwise.nil

/-- Witness for C1 at a concrete input: two adapters returning one message
each, out of order across adapters (t=200 then t=100); the successful
response is sorted. -/
theorem pollMessages_response_sorted_witness :
    (pollMessages [adLate, adEarly] 0 10).errorDetails = none
    ∧ List.Pairwise tsLePb (pollMessages [adLate, adEarly] 0 10).messages :=
  ⟨by decide, pollMessages_response_sorted [adLate, adEarly] 0 10 (by decide)⟩

/-! ## C2 — fail-fast error propagation in PollMessages -/

/-- Helper: when every adapter before `f` succeeds and `f` raises `e`, the
fetch loop's result is the error `e` (messages accumulated so far are
abandoned). -/
lemma fetchSeq_error_fst (since : Int) (per : Nat) (f : AdapterFn)
    (post : List AdapterFn) (e : String)
    (hf : f since per = Except.error e) :
    ∀ (pre : List AdapterFn) (i : Nat) (acc : List PbUnifiedMessage),
      (∀ g ∈ pre, ∃ b, g since per = Except.ok b) →
      (fetchSeq since per (pre ++ f :: post) i acc).1 = Except.error e
  | [], i, acc, _ => by
    simp only [List.nil_append, fetchSeq, hf]
  | g :: pre', i, acc, hpre => by
    rcases hpre g (List.mem_cons_self g pre') with ⟨b, hb⟩
    simp only [List.cons_append, fetchSeq, hb]
    exact fetchSeq_error_fst since per f post e hf pre' (i + 1)
      (acc ++ b.map UnifiedMessage.to_grpc)
      (fun g' hg' => hpre g' (List.mem_cons_of_mem g hg'))

/-- C2: if one matched adapter's fetch raises while every adapter before it
succeeded, the whole call returns the single internal error carrying that
adapter's message, and the response carries no messages at all — the batches
already fetched from the earlier adapters are dropped. -/
theorem pollMessages_failFast (pre post : List AdapterFn) (f : AdapterFn)
    (since : Int) (maxReq : Nat) (e : String)
    (hpre : ∀ g ∈ pre,
      ∃ b, g since
        (perAdapterBudget (maxmEff maxReq) (pre ++ f :: post).length)
        = Except.ok b)
    (hf : f since (perAdapterBudget (maxmEff maxReq) (pre ++ f :: post).length)
        = Except.error e) :
    pollMessages (pre ++ f :: post) since maxReq =
      ⟨[], some e⟩ := by
  unfold pollMessages pollMessagesTr
  have h1 := fetchSeq_error_fst since
    (perAdapterBudget (maxmEff maxReq) (pre ++ f :: post).length)
    f post e hf pre 0 [] hpre
  cases hfs : fetchSeq since
      (perAdapterBudget (maxmEff maxReq) (pre ++ f :: post).length)
      (pre ++ f :: post) 0 [] with
  | mk r evs =>
    rw [hfs] at h1
    cases r with
    | ok msgs => exact Except.noConfusion h1
    | error e' =>
      injection h1 with he
      rw [he]

/-- Witness for C2 at a concrete input: one successful adapter before a
raising one (and one after); the call yields the raising adapter's message
and an empty message list. The budget is `max(1, 10 // 3) = 3`. -/
theorem pollMessages_failFast_witness :
    adBoom 0 3 = Except.error "boom"
    ∧ pollMessages [adLate, adBoom, adEarly] 0 10 = ⟨[], some "boom"⟩ :=
  ⟨rfl,
    pollMessages_failFast [adLate] [adEarly] adBoom 0 10 "boom"
      (by
        intro g hg
        rw [List.mem_singleton] at hg
        subst hg
        exact ⟨[mkMsg "a" 200], rfl⟩)
      rfl⟩

/-! ## C5 — response cap and per-adapter budget -/

/-- Helper: the event trace of a `PollMessages` call is exactly the fetch
loop's trace. -/
lemma pollMessagesTr_snd (adapters : List AdapterFn) (sinceReq : Int)
    (maxReq : Nat) :
    (pollMessagesTr adapters sinceReq maxReq).2 =
      (fetchSeq sinceReq (perAdapterBudget (maxmEff maxReq) adapters.length)
        adapters 0 []).2 := by
  unfold pollMessagesTr
  cases hfs : fetchSeq sinceReq
      (perAdapterBudget (maxmEff maxReq) adapters.length) adapters 0 [] with
  | mk r evs =>
    cases r with
    | ok msgs => rfl
    | error e => rfl

/-- Helper: every event of the fetch loop's trace is either a fetch issued
with the shared watermark and the per-adapter budget, or a return. -/
lemma fetchSeq_trace_events (since : Int) (per : Nat) :
    ∀ (l : List AdapterFn) (i : Nat) (acc : List PbUnifiedMessage)
      (ev : FetchEvent), ev ∈ (fetchSeq since per l i acc).2 →
      (∃ j, ev = FetchEvent.call j since per) ∨ ∃ j, ev = FetchEvent.ret j
  | [], _, _, ev, hev => absurd hev (List.not_mem_nil ev)
  | f :: rest, i, acc, ev, hev => by
    cases hc : f since per with
    | ok batch =>
      simp only [fetchSeq, hc] at hev
      rcases List.mem_cons.mp hev with rfl | hev2
      · exact Or.inl ⟨i, rfl⟩
      · rcases List.mem_cons.mp hev2 with rfl | hev3
        · exact Or.inr ⟨i, rfl⟩
        · exact fetchSeq_trace_events since per rest (i + 1)
            (acc ++ batch.map UnifiedMessage.to_grpc) ev hev3
    | error e =>
      simp only [fetchSeq, hc] at hev
      rcases List.mem_cons.mp hev with rfl | hev2
      · exact Or.inl ⟨i, rfl⟩
      · exact absurd hev2 (List.not_mem_nil ev)

/-- Helper: when the fetch loop succeeds, every adapter of the list had its
fetch issued (a call event with its index, the watermark and the budget is in
the trace). -/
lemma fetchSeq_ok_calls_all (since : Int) (per : Nat) :
    ∀ (l : List AdapterFn) (i : Nat) (acc msgs : List PbUnifiedMessage),
      (fetchSeq since per l i acc).1 = Except.ok msgs →
      ∀ j < l.length,
        FetchEvent.call (i + j) since per ∈ (fetchSeq since per l i acc).2
  | [], _, _, _, _, j, hj => absurd hj (by simp)
  | f :: rest, i, acc, msgs, hok, j, hj => by
    cases hc : f since per with
    | error e =>
      rw [show fetchSeq since per (f :: rest) i acc =
          (Except.error e, [FetchEvent.call i since per]) by
        simp only [fetchSeq, hc]] at hok
      exact Except.noConfusion hok
    | ok batch =>
      simp only [fetchSeq, hc] at hok ⊢
      cases j with
      | zero =>
        rw [Nat.add_zero]
        exact List.mem_cons_self _ _
      | succ j' =>
        have harith : i + (j' + 1) = (i + 1) + j' := by omega
        rw [harith]
        refine List.mem_cons_of_mem _ (List.mem_cons_of_mem _ ?_)
        exact fetchSeq_ok_calls_all since per rest (i + 1)
          (acc ++ batch.map UnifiedMessage.to_grpc) msgs hok j'
          (by simpa using Nat.lt_of_succ_lt_succ (by simpa using hj))

/-- C5: for N > 0, a `PollMessages` call with `max_messages = N` returns at
most N messages; every fetch the loop issues carries the shared watermark and
the per-adapter budget `max(1, N // number_of_matched_adapters)`; and on
success every matched adapter's fetch was issued with that budget. -/
theorem pollMessages_budget_cap (adapters : List AdapterFn) (since : Int)
    (N : Nat) (hN : 0 < N) :
    (pollMessages adapters since N).messages.length ≤ N
    ∧ ((pollMessagesTr adapters since N).2.all
        (fun ev => match ev with
          | FetchEvent.call _ s b =>
            decide (s = since ∧ b = max 1 (N / adapters.length))
          | FetchEvent.ret _ => true)) = true
    ∧ ((pollMessages adapters since N).errorDetails = none →
        ((List.range adapters.length).all
          (fun i => decide
            (FetchEvent.call i since (max 1 (N / adapters.length))
              ∈ (pollMessagesTr adapters since N).2))) = true) := by
  have hmax : maxmEff N = N := by
    unfold maxmEff
    rw [if_neg (Nat.pos_iff_ne_zero.mp hN)]
  refine ⟨?_, ?_, ?_⟩
  · unfold pollMessages pollMessagesTr
    cases hfs : fetchSeq since
        (perAdapterBudget (maxmEff N) adapters.length) adapters 0 [] with
    | mk r evs =>
      cases r with
      | ok msgs =>
        show ((msgs.insertionSort tsLePb).take (maxmEff N)).length ≤ N
        rw [List.length_take, hmax]
        exact min_le_left _ _
      | error e => exact Nat.zero_le N
  · rw [pollMessagesTr_snd, List.all_eq_true]
    intro ev hev
    rcases fetchSeq_trace_events since
        (perAdapterBudget (maxmEff N) adapters.length) adapters 0 [] ev hev
      with ⟨j, rfl⟩ | ⟨j, rfl⟩
    · apply decide_eq_true
      refine ⟨rfl, ?_⟩
      cases hlen : adapters with
      | nil =>
        rw [hlen] at hev
        exact absurd hev (List.not_mem_nil _)
      | cons a rest =>
        unfold perAdapterBudget
        rw [hmax, if_neg (by simp)]
    · rfl
  · intro hsucc
    unfold pollMessages pollMessagesTr at hsucc
    rw [List.all_eq_true]
    intro i hi
    rw [List.mem_range] at hi
    apply decide_eq_true
    rw [pollMessagesTr_snd]
    cases hfs : fetchSeq since
        (perAdapterBudget (maxmEff N) adapters.length) adapters 0 [] with
    | mk r evs =>
      rw [hfs] at hsucc
      cases r with
      | error e =>
        exact absurd hsucc (by simp)
      | ok msgs =>
        have hper : perAdapterBudget (maxmEff N) adapters.length =
            max 1 (N / adapters.length) := by
          cases hlen : adapters with
          | nil =>
            rw [hlen] at hi
            exact absurd hi (by simp)
          | cons a rest =>
            unfold perAdapterBudget
            rw [hmax, if_neg (by simp)]
        have hcall := fetchSeq_ok_calls_all since
          (perAdapterBudget (maxmEff N) adapters.length) adapters 0 [] msgs
          (by rw [hfs]) i hi
        rw [hfs] at hcall
        rw [← hper]
        simpa using hcall

/-- Witness for C5 at a concrete input: two adapters, N = 5; at most 5
messages come back, the budget of every issued fetch is
`max(1, 5 // 2) = 2`, and on this successful call both adapters' fetches
were issued. -/
theorem pollMessages_budget_cap_witness :
    0 < 5
    ∧ ((pollMessages [adLate, adEarly] 0 5).messages.length ≤ 5
      ∧ ((pollMessagesTr [adLate, adEarly] 0 5).2.all
          (fun ev => match ev with
            | FetchEvent.call _ s b =>
              decide (s = 0 ∧
                b = max 1 (5 / ([adLate, adEarly] : List AdapterFn).length))
            | FetchEvent.ret _ => true)) = true
      ∧ ((pollMessages [adLate, adEarly] 0 5).errorDetails = none →
          ((List.range ([adLate, adEarly] : List AdapterFn).length).all
            (fun i => decide
              (FetchEvent.call i 0
                  (max 1 (5 / ([adLate, adEarly] : List AdapterFn).length))
                ∈ (pollMessagesTr [adLate, adEarly] 0 5).2))) = true)) :=
  ⟨by decide, pollMessages_budget_cap [adLate, adEarly] 0 5 (by decide)⟩

/-! ## C3 — watermark filtering in every adapter -/

/-- Helper: the Telegram update loop only appends messages whose timestamp
clears the watermark (when the watermark is truthy). -/
lemma tgLoop_mem_ts (since : Int) (maxm : Nat) :
    ∀ (upds : List TgUpdate) (acc : TgAcc),
      (∀ m ∈ acc.out, since ≠ 0 → since < m.timestamp_utc_ms) →
      ∀ m ∈ (tgLoop since maxm upds acc).out,
        since ≠ 0 → since < m.timestamp_utc_ms
  | [], _, hacc => hacc
  | u :: rest, acc, hacc => by
    cases hm : u.effectiveMsg with
    | none =>
      simp only [tgLoop, hm]
      exact tgLoop_mem_ts since maxm rest _ hacc
    | some msg =>
      simp only [tgLoop, hm]
      by_cases hskip : since ≠ 0 ∧ (msg.date : Int) * 1000 ≤ since
      · rw [if_pos hskip]
        exact tgLoop_mem_ts since maxm rest _ hacc
      · rw [if_neg hskip]
        have hout : ∀ m ∈ acc.out ++ [tgToUnified msg ((msg.date : Int) * 1000)],
            since ≠ 0 → since < m.timestamp_utc_ms := by
          intro m hmem hs
          rcases List.mem_append.mp hmem with h1 | h2
          · exact hacc m h1 hs
          · rw [List.mem_singleton] at h2
            subst h2
            show since < (msg.date : Int) * 1000
            exact not_le.mp (fun hle => hskip ⟨hs, hle⟩)
        by_cases hbreak : maxm ≤
            (acc.out ++ [tgToUnified msg ((msg.date : Int) * 1000)]).length
        · rw [if_pos hbreak]
          exact hout
        · rw [if_neg hbreak]
          exact tgLoop_mem_ts since maxm rest _ hout

/-- Helper: the Discord message loop only emits messages whose
snowflake-derived timestamp clears the watermark (when it is truthy). -/
lemma dcNormalize_mem_ts (since : Int) :
    ∀ (l : List DcMsg) (m : UnifiedMessage), m ∈ dcNormalize since l →
      since ≠ 0 → since < m.timestamp_utc_ms
  | [], m, hm => absurd hm (List.not_mem_nil m)
  | d :: rest, m, hm => by
    by_cases htype : d.type ≠ some 0
    · simp only [dcNormalize, if_pos htype] at hm
      exact dcNormalize_mem_ts since rest m hm
    · simp only [dcNormalize, if_neg htype] at hm
      by_cases hskip : since ≠ 0 ∧ discord_snowflake_to_ms d.id ≤ since
      · rw [if_pos hskip] at hm
        exact dcNormalize_mem_ts since rest m hm
      · rw [if_neg hskip] at hm
        intro hs
        rcases List.mem_cons.mp hm with h1 | h2
        · rw [h1]
          show since < discord_snowflake_to_ms d.id
          exact not_le.mp (fun hle => hskip ⟨hs, hle⟩)
        · exact dcNormalize_mem_ts since rest m h2 hs

/-- Helper: the Discord channel loop preserves the watermark property of its
accumulator. -/
lemma dcChannels_mem_ts (since : Int) (maxm per : Nat) (env : DcEnv) :
    ∀ (chans : List String) (out : List UnifiedMessage),
      (∀ m ∈ out, since ≠ 0 → since < m.timestamp_utc_ms) →
      ∀ m ∈ dcChannels since maxm per env chans out,
        since ≠ 0 → since < m.timestamp_utc_ms
  | [], _, hout => hout
  | ch :: rest, out, hout => by
    cases he : env ⟨ch, per,
        if since ≠ 0 then some (ms_to_discord_snowflake since) else none⟩ with
    | none =>
      simp only [dcChannels, he]
      exact dcChannels_mem_ts since maxm per env rest out hout
    | some data =>
      simp only [dcChannels, he]
      have hout' : ∀ m ∈ out ++ dcNormalize since data,
          since ≠ 0 → since < m.timestamp_utc_ms := by
        intro m hmem hs
        rcases List.mem_append.mp hmem with h1 | h2
        · exact hout m h1 hs
        · exact dcNormalize_mem_ts since data m h2 hs
      by_cases hbreak : maxm ≤ (out ++ dcNormalize since data).length
      · rw [if_pos hbreak]
        exact hout'
      · rw [if_neg hbreak]
        exact dcChannels_mem_ts since maxm per env rest _ hout'

/-- C3: for every adapter and every watermark T > 0,
`fetch_messages(since_timestamp_utc_ms = T)` returns no message whose
`timestamp_utc_ms` is ≤ T, for every upstream payload and every
`max_messages`. -/
theorem fetch_messages_watermark (T : Int) (hT : 0 < T) :
    (∀ (a : TelegramAdapter) (maxm : Nat) (resp : Option (List TgUpdate))
        (m : UnifiedMessage), m ∈ a.fetch_messages T maxm resp →
        T < m.timestamp_utc_ms)
    ∧ (∀ (d : DiscordAdapter) (maxm : Nat) (env : DcEnv)
        (m : UnifiedMessage), m ∈ d.fetch_messages T maxm env →
        T < m.timestamp_utc_ms)
    ∧ (∀ (w : WhatsAppAdapter) (since : Int) (maxm : Nat)
        (qk : Option String) (m : UnifiedMessage),
        m ∈ w.fetch_messages since maxm qk → T < m.timestamp_utc_ms) := by
  have hTne : T ≠ 0 := ne_of_gt hT
  refine ⟨?_, ?_, ?_⟩
  · intro a maxm resp m hm
    unfold TelegramAdapter.fetch_messages TelegramAdapter.fetchFull at hm
    by_cases ht : optFalsy a.token
    · rw [if_pos ht] at hm
      exact absurd hm (List.not_mem_nil m)
    · rw [if_neg ht] at hm
      cases resp with
      | none => exact absurd hm (List.not_mem_nil m)
      | some updates =>
        exact tgLoop_mem_ts T maxm updates ⟨[], a.offset, []⟩
          (fun m' hm' => absurd hm' (List.not_mem_nil m')) m hm hTne
  · intro d maxm env m hm
    unfold DiscordAdapter.fetch_messages at hm
    by_cases hguard : optFalsy d.token = true ∨ d.channel_ids = []
    · rw [if_pos hguard] at hm
      exact absurd hm (List.not_mem_nil m)
    · rw [if_neg hguard] at hm
      have hsorted : m ∈ (dcChannels T maxm
          (max 1 (maxm / d.channel_ids.length)) env
          (d.channel_ids.take 20) []).insertionSort tsLeU :=
        List.Sublist.subset (List.take_sublist _ _) hm
      have hbase : m ∈ dcChannels T maxm
          (max 1 (maxm / d.channel_ids.length)) env
          (d.channel_ids.take 20) [] :=
        (List.perm_insertionSort tsLeU _).mem_iff.mp hsorted
      exact dcChannels_mem_ts T maxm _ env (d.channel_ids.take 20) []
        (fun m' hm' => absurd hm' (List.not_mem_nil m')) m hbase hTne
  · intro w since maxm qk m hm
    unfold WhatsAppAdapter.fetch_messages at hm
    by_cases hw : optFalsy w.token = true ∨ optFalsy w.phone_number_id = true
    · rw [if_pos hw] at hm
      exact absurd hm (List.not_mem_nil m)
    · rw [if_neg hw] at hm
      cases qk with
      | none => exact absurd hm (List.not_mem_nil m)
      | some k =>
        have hm' : m ∈ (if k = "" then ([] : List UnifiedMessage)
            else drain_queue k since maxm Platform.WHATSAPP) := hm
        by_cases hk : k = ""
        · rw [if_pos hk] at hm'
          exact absurd hm' (List.not_mem_nil m)
        · rw [if_neg hk] at hm'
          exact absurd hm' (List.not_mem_nil m)

/-- Witness for C3 at a concrete input: with T = 1, a Telegram fetch over a
payload with one update at date 10s returns that message, whose timestamp
10000 ms clears the watermark. -/
theorem fetch_messages_watermark_witness :
    (0 : Int) < 1
    ∧ (1 : Int) <
        (tgToUnified { message_id := 9, date := 10 } 10000).timestamp_utc_ms :=
  ⟨by decide,
    (fetch_messages_watermark 1 (by decide)).1 ⟨some "tok", none⟩ 10
      (some [⟨9, some { message_id := 9, date := 10 }, none⟩])
      (tgToUnified { message_id := 9, date := 10 } 10000) (by decide)⟩
